import Mathlib

/-
Verification development for the SolomDev00/Middlewares repository: a small
Express application serving a fake product catalog through HTML views and a
JSON API, with a centralized error-handling middleware.

The embedding below translates the TypeScript sources into Lean:
  - src/middlewares/Error.ts  → Middlewares.ErrorMiddleware.handle
  - the stray unnamed variant of the same class → Middlewares.Part000.ErrorMiddleware.handle
  - src/server.ts route wiring → Middlewares.routes / dispatch / serve, PORT / listenPort
  - ProductService (its file is not present in the sources; it is modelled
    from the specification) → Middlewares.ProductService

JavaScript strings are modelled as Lean String values; the path predicates
used by the code (String.startsWith and single-segment matching) are defined
over the underlying character list so they evaluate inside the kernel.
-/

namespace Middlewares

/-- JavaScript `s.startsWith(p)`, computed on the character list. -/
def strStartsWith (s p : String) : Bool := p.data.isPrefixOf s.data

/-- The `err : Error` argument of the middleware: the code reads only
`err.message` and `err.stack`. -/
structure Err where
  message : String
  stack : String
deriving DecidableEq

/-- The `req : Request` argument: the middleware reads only `req.originalUrl`. -/
structure Req where
  originalUrl : String
deriving DecidableEq

/-- Response bodies the middleware can emit: `res.json({error, message, stack})`
or `res.render(view, {pageTitle, message, error})`. -/
inductive Body where
  | jsonError (error : String) (message : String) (stack : Option String)
  | renderError (view : String) (pageTitle : String) (message : String) (error : String)
deriving DecidableEq

/-- One emitted HTTP response: the status set by `res.status(...)` and the body. -/
structure Resp where
  status : Nat
  body : Body
deriving DecidableEq

/-- Observable effect of one run of the middleware: the responses emitted,
in order, and how many times `next()` was called. -/
structure HandleResult where
  responses : List Resp
  nextCalls : Nat
deriving DecidableEq

namespace ErrorMiddleware

/-- `ErrorMiddleware.handle` from src/middlewares/Error.ts.  `nodeEnv` is
`process.env.NODE_ENV` (`none` when unset).  If `req.originalUrl` starts with
"/api" it sends a 500 JSON body and returns without calling `next`; otherwise
it renders the "error" view with status 500 and then calls `next()`. -/
def handle (err : Err) (req : Req) (nodeEnv : Option String) : HandleResult :=
  if strStartsWith req.originalUrl "/api" then
    { responses :=
        [{ status := 500,
           body := Body.jsonError "Internal Server Error" err.message
                     (if nodeEnv = some "development" then some err.stack else none) }],
      nextCalls := 0 }
  else
    { responses :=
        [{ status := 500,
           body := Body.renderError "error" "Something error."
                     "500, Error Server Down." err.message }],
      nextCalls := 1 }

end ErrorMiddleware

namespace Part000.ErrorMiddleware

/-- `ErrorMiddleware.handle` from the unnamed source file (part_000).  The
"/api" branch sends a 500 JSON body labelled "Interal Server Error" and does
not return early; `next()` runs unconditionally, and a request outside "/api"
gets no response at all. -/
def handle (err : Err) (req : Req) (nodeEnv : Option String) : HandleResult :=
  if strStartsWith req.originalUrl "/api" then
    { responses :=
        [{ status := 500,
           body := Body.jsonError "Interal Server Error" err.message
                     (if nodeEnv = some "development" then some err.stack else none) }],
      nextCalls := 1 }
  else
    { responses := [], nextCalls := 1 }

end Part000.ErrorMiddleware

/-- True when `path` is one URL segment under "/products", as the Express
pattern "/products/:id" requires: "/products/" followed by a nonempty
segment with no further "/". -/
def paramSegMatch (path : String) : Bool :=
  strStartsWith path "/products/" &&
    !(path.data.drop 10).isEmpty && !(path.data.drop 10).contains '/'

/-- True when `path` falls under the mount point "/api/products", as
`app.use("/api/products", productsRouter)` requires: the exact mount path or
anything below it. -/
def underApiProducts (path : String) : Bool :=
  path == "/api/products" || strStartsWith path "/api/products/"

/-- The five route registrations of src/server.ts, in source order. -/
inductive RouteSpec where
  | getProducts
  | getProductDetail
  | useApiProducts
  | getHome
  | getStar
deriving DecidableEq

/-- Whether one registered route accepts a request.  `app.get` routes accept
only the GET method; `app.use("/api/products", ...)` accepts any method on a
path under its mount point; `app.get("*")` accepts every GET path. -/
def routeMatches (r : RouteSpec) (method path : String) : Bool :=
  match r with
  | RouteSpec.getProducts => method == "GET" && path == "/products"
  | RouteSpec.getProductDetail => method == "GET" && paramSegMatch path
  | RouteSpec.useApiProducts => underApiProducts path
  | RouteSpec.getHome => method == "GET" && path == "/"
  | RouteSpec.getStar => method == "GET"

/-- The registration order from src/server.ts. -/
def routes : List RouteSpec :=
  [RouteSpec.getProducts, RouteSpec.getProductDetail, RouteSpec.useApiProducts,
   RouteSpec.getHome, RouteSpec.getStar]

/-- Express dispatch: the first registered route that accepts the request,
`none` when no route accepts it. -/
def dispatch (method path : String) : Option RouteSpec :=
  routes.find? (fun r => routeMatches r method path)

/-- What the server does with a request: render a view inline (the two
handlers written out in server.ts, with Express default status 200), hand it
to a controller or sub-router defined outside server.ts, or leave it
unhandled (framework default handling). -/
inductive Outcome where
  | page (status : Nat) (view : String)
  | controller (r : RouteSpec)
  | unhandled
deriving DecidableEq

/-- Routing result for one request per src/server.ts: `app.get("/")` renders
"index", `app.get("*")` renders "notFound", both with the `res.render`
default status 200; the product routes delegate to controllers. -/
def serve (method path : String) : Outcome :=
  match dispatch method path with
  | some RouteSpec.getHome => Outcome.page 200 "index"
  | some RouteSpec.getStar => Outcome.page 200 "notFound"
  | some r => Outcome.controller r
  | none => Outcome.unhandled

/-- Process inputs that could in principle influence startup: environment
variables and command-line arguments. -/
structure ProcessEnv where
  vars : List (String × String)
  argv : List String

/-- `const PORT: number = 5000` from src/server.ts. -/
def PORT : Nat := 5000

/-- The port `app.listen` binds; src/server.ts passes the constant `PORT`
and consults neither the environment nor the command line for it. -/
def listenPort (_ : ProcessEnv) : Nat := PORT

/-- A generated catalog record (§3 of the specification). -/
structure Product where
  id : Nat
  name : String
  price : Nat
  description : String
  category : String
  image : String
deriving DecidableEq

/-- Modelled from the spec: the ProductService source file is not among the
sources; §4.2 says it holds the generated sequence and exposes `list()` and
`getById(id)`, the latter returning the matching Product when present and a
"not found" condition (not a thrown fault) when absent. -/
structure ProductService where
  products : List Product

/-- Modelled from the spec: `list()` returns the full ordered sequence. -/
def ProductService.list (s : ProductService) : List Product := s.products

/-- Modelled from the spec: `getById(id)` returns the matching Product if
present and signals not-found (`none`) if absent; it is a total function, so
it never throws. -/
def ProductService.getById (s : ProductService) (id : Nat) : Option Product :=
  s.products.find? (fun p => p.id == id)

/-- A concrete two-product service used to witness the `getById` theorem. -/
def sampleService : ProductService :=
  ⟨[⟨1, "Chair", 10, "a chair", "furniture", "chair.png"⟩,
    ⟨2, "Lamp", 20, "a lamp", "lighting", "lamp.png"⟩]⟩

namespace ErrorMiddleware

/-- C1: for every fault handled by the Error Middleware on a request whose
original URL starts with "/api", the middleware responds with status 500 and
a JSON body whose error label is the fixed string, whose message is the
fault's message, and whose stack is the fault's stack trace when NODE_ENV is
"development" and null otherwise. -/
theorem api_fault_json (err : Err) (req : Req) (nodeEnv : Option String)
    (h : strStartsWith req.originalUrl "/api" = true) :
    (handle err req nodeEnv).responses =
      [{ status := 500,
         body := Body.jsonError "Internal Server Error" err.message
                   (if nodeEnv = some "development" then some err.stack else none) }] := by
  simp [handle, h]

/-- C1 witness: a concrete "/api" fault in development mode. -/
theorem api_fault_json_witness :
    (handle ⟨"boom", "trace"⟩ ⟨"/api/products/9"⟩ (some "development")).responses =
      [{ status := 500, body := Body.jsonError "Internal Server Error" "boom" (some "trace") }] := by
  have h := api_fault_json ⟨"boom", "trace"⟩ ⟨"/api/products/9"⟩ (some "development") (by decide)
  simpa using h

/-- C2: for every fault handled by the Error Middleware on a request whose
original URL does not start with "/api", the middleware responds with status
500, rendering the "error" view with the fixed page title, the fixed
user-facing message, and the fault's message. -/
theorem html_fault_render (err : Err) (req : Req) (nodeEnv : Option String)
    (h : strStartsWith req.originalUrl "/api" = false) :
    (handle err req nodeEnv).responses =
      [{ status := 500,
         body := Body.renderError "error" "Something error."
                   "500, Error Server Down." err.message }] := by
  simp [handle, h]

/-- C2 witness: a concrete fault on a browser path. -/
theorem html_fault_render_witness :
    (handle ⟨"boom", "trace"⟩ ⟨"/products"⟩ none).responses =
      [{ status := 500,
         body := Body.renderError "error" "Something error."
                   "500, Error Server Down." "boom" }] :=
  html_fault_render ⟨"boom", "trace"⟩ ⟨"/products"⟩ none (by decide)

/-- C3: for every fault, request, and environment mode, the Error Middleware
emits exactly one response: never zero and never more than one. -/
theorem exactly_one_response (err : Err) (req : Req) (nodeEnv : Option String) :
    (handle err req nodeEnv).responses.length = 1 := by
  unfold handle
  split <;> rfl

/-- C4: on an "/api" path the JSON body's stack field is the fault's stack
trace exactly in "development" mode and null in every other mode, and in any
non-development mode the whole middleware output is unchanged when the
fault's stack trace is replaced by an arbitrary one. -/
theorem stack_gated_by_env (err : Err) (req : Req) (nodeEnv : Option String)
    (h : strStartsWith req.originalUrl "/api" = true) :
    (nodeEnv = some "development" →
       (handle err req nodeEnv).responses =
         [{ status := 500,
            body := Body.jsonError "Internal Server Error" err.message (some err.stack) }]) ∧
    (nodeEnv ≠ some "development" →
       (handle err req nodeEnv).responses =
         [{ status := 500,
            body := Body.jsonError "Internal Server Error" err.message none }] ∧
       ∀ s : String, handle err req nodeEnv = handle ⟨err.message, s⟩ req nodeEnv) := by
  constructor
  · intro hdev
    simp [handle, h, hdev]
  · intro hdev
    constructor
    · simp [handle, h, hdev]
    · intro s
      simp [handle, h, hdev]

/-- C4 witness: in production mode the stack field is null and the output
does not depend on the stack trace. -/
theorem stack_gated_by_env_witness :
    (handle ⟨"boom", "trace"⟩ ⟨"/api/x"⟩ (some "production")).responses =
      [{ status := 500, body := Body.jsonError "Internal Server Error" "boom" none }] ∧
    handle ⟨"boom", "trace"⟩ ⟨"/api/x"⟩ (some "production") =
      handle ⟨"boom", "other"⟩ ⟨"/api/x"⟩ (some "production") := by
  have h := (stack_gated_by_env ⟨"boom", "trace"⟩ ⟨"/api/x"⟩ (some "production")
              (by decide)).2 (by decide)
  exact ⟨h.1, h.2 "other"⟩

/-- C9: the two branches of handle are mutually exclusive and their
continuations differ: on an "/api" request it sends the JSON response and
never calls next, on any other request it renders the HTML error page and
calls next exactly once. -/
theorem branch_exclusive (err : Err) (req : Req) (nodeEnv : Option String) :
    (strStartsWith req.originalUrl "/api" = true →
       (handle err req nodeEnv).nextCalls = 0 ∧
       (handle err req nodeEnv).responses =
         [{ status := 500,
            body := Body.jsonError "Internal Server Error" err.message
                      (if nodeEnv = some "development" then some err.stack else none) }]) ∧
    (strStartsWith req.originalUrl "/api" = false →
       (handle err req nodeEnv).nextCalls = 1 ∧
       (handle err req nodeEnv).responses =
         [{ status := 500,
            body := Body.renderError "error" "Something error."
                      "500, Error Server Down." err.message }]) := by
  constructor <;> intro h <;> simp [handle, h]

/-- C9 witness: next is not called on a concrete "/api" request and is called
once on a concrete browser request. -/
theorem branch_exclusive_witness :
    (handle ⟨"boom", "trace"⟩ ⟨"/api/x"⟩ none).nextCalls = 0 ∧
    (handle ⟨"boom", "trace"⟩ ⟨"/page"⟩ none).nextCalls = 1 :=
  ⟨((branch_exclusive ⟨"boom", "trace"⟩ ⟨"/api/x"⟩ none).1 (by decide)).1,
   ((branch_exclusive ⟨"boom", "trace"⟩ ⟨"/page"⟩ none).2 (by decide)).1⟩

end ErrorMiddleware

/-- C10 counterexample: the two ErrorMiddleware.handle implementations are
not extensionally equal; on a concrete non-"/api" request the Error.ts
version renders an HTML error page while the part_000 version emits no
response at all. -/
theorem two_middlewares_differ :
    ErrorMiddleware.handle ⟨"boom", "trace"⟩ ⟨"/page"⟩ none ≠
      Part000.ErrorMiddleware.handle ⟨"boom", "trace"⟩ ⟨"/page"⟩ none := by
  decide

/-- C10 amended: for "/api" requests the two implementations agree on status,
message, and stack fields but differ in the error label ("Internal" versus
"Interal") and in next calls (zero versus one); for every other request the
Error.ts version emits one 500 HTML render and the part_000 version emits no
response, both calling next once. -/
theorem two_middlewares_compared (err : Err) (req : Req) (nodeEnv : Option String) :
    (strStartsWith req.originalUrl "/api" = true →
       ErrorMiddleware.handle err req nodeEnv =
         { responses :=
             [{ status := 500,
                body := Body.jsonError "Internal Server Error" err.message
                          (if nodeEnv = some "development" then some err.stack else none) }],
           nextCalls := 0 } ∧
       Part000.ErrorMiddleware.handle err req nodeEnv =
         { responses :=
             [{ status := 500,
                body := Body.jsonError "Interal Server Error" err.message
                          (if nodeEnv = some "development" then some err.stack else none) }],
           nextCalls := 1 }) ∧
    (strStartsWith req.originalUrl "/api" = false →
       ErrorMiddleware.handle err req nodeEnv =
         { responses :=
             [{ status := 500,
                body := Body.renderError "error" "Something error."
                          "500, Error Server Down." err.message }],
           nextCalls := 1 } ∧
       Part000.ErrorMiddleware.handle err req nodeEnv =
         { responses := [], nextCalls := 1 }) := by
  constructor <;> intro h <;>
    simp [ErrorMiddleware.handle, Part000.ErrorMiddleware.handle, h]

/-- C10 amended witness: both branches at concrete inputs. -/
theorem two_middlewares_compared_witness :
    Part000.ErrorMiddleware.handle ⟨"boom", "trace"⟩ ⟨"/api/x"⟩ none =
      { responses :=
          [{ status := 500, body := Body.jsonError "Interal Server Error" "boom" none }],
        nextCalls := 1 } ∧
    Part000.ErrorMiddleware.handle ⟨"boom", "trace"⟩ ⟨"/page"⟩ none =
      { responses := [], nextCalls := 1 } := by
  have h1 := (two_middlewares_compared ⟨"boom", "trace"⟩ ⟨"/api/x"⟩ none).1 (by decide)
  have h2 := (two_middlewares_compared ⟨"boom", "trace"⟩ ⟨"/page"⟩ none).2 (by decide)
  exact ⟨by simpa using h1.2, h2.2⟩

/-- C5 counterexample: a POST to a path outside "/api/products" matches no
registered route, so dispatch selects nothing — in particular not the
"*" fallback, which the claim says catches any other path and method. -/
theorem dispatch_post_unrouted :
    dispatch "POST" "/foo" = none ∧
    dispatch "POST" "/foo" ≠ some RouteSpec.getStar := by
  decide

/-- Helper: dispatch unfolded into the chain of route tests in registration
order. -/
theorem dispatch_eq (method path : String) :
    dispatch method path =
      (bif routeMatches RouteSpec.getProducts method path then some RouteSpec.getProducts
       else bif routeMatches RouteSpec.getProductDetail method path then
         some RouteSpec.getProductDetail
       else bif routeMatches RouteSpec.useApiProducts method path then
         some RouteSpec.useApiProducts
       else bif routeMatches RouteSpec.getHome method path then some RouteSpec.getHome
       else bif routeMatches RouteSpec.getStar method path then some RouteSpec.getStar
       else none) := by
  simp only [dispatch, routes, List.find?]
  cases routeMatches RouteSpec.getProducts method path <;>
    cases routeMatches RouteSpec.getProductDetail method path <;>
      cases routeMatches RouteSpec.useApiProducts method path <;>
        cases routeMatches RouteSpec.getHome method path <;>
          cases routeMatches RouteSpec.getStar method path <;>
            rfl

/-- C5 amended: routes are evaluated in the fixed registration order
(1) GET /products, (2) GET /products/:id, (3) anything under /api/products,
(4) GET /, (5) GET fallback "*", and dispatch selects the first route that
matches with no backtracking; the fallback catches only GET requests, so a
non-GET request outside /api/products matches no route at all. -/
theorem dispatch_priority (method path : String) :
    (routeMatches RouteSpec.getProducts method path = true →
       dispatch method path = some RouteSpec.getProducts) ∧
    (routeMatches RouteSpec.getProducts method path = false →
     routeMatches RouteSpec.getProductDetail method path = true →
       dispatch method path = some RouteSpec.getProductDetail) ∧
    (routeMatches RouteSpec.getProducts method path = false →
     routeMatches RouteSpec.getProductDetail method path = false →
     routeMatches RouteSpec.useApiProducts method path = true →
       dispatch method path = some RouteSpec.useApiProducts) ∧
    (routeMatches RouteSpec.getProducts method path = false →
     routeMatches RouteSpec.getProductDetail method path = false →
     routeMatches RouteSpec.useApiProducts method path = false →
     routeMatches RouteSpec.getHome method path = true →
       dispatch method path = some RouteSpec.getHome) ∧
    (routeMatches RouteSpec.getProducts method path = false →
     routeMatches RouteSpec.getProductDetail method path = false →
     routeMatches RouteSpec.useApiProducts method path = false →
     routeMatches RouteSpec.getHome method path = false →
     routeMatches RouteSpec.getStar method path = true →
       dispatch method path = some RouteSpec.getStar) ∧
    (routeMatches RouteSpec.getStar method path = false →
     routeMatches RouteSpec.useApiProducts method path = false →
       dispatch method path = none) := by
  simp only [dispatch_eq]
  cases h1 : routeMatches RouteSpec.getProducts method path <;>
    cases h2 : routeMatches RouteSpec.getProductDetail method path <;>
      cases h3 : routeMatches RouteSpec.useApiProducts method path <;>
        cases h4 : routeMatches RouteSpec.getHome method path <;>
          cases h5 : routeMatches RouteSpec.getStar method path <;>
            refine ⟨?_, ?_, ?_, ?_, ?_, ?_⟩ <;> intros <;>
              first
                | contradiction
                | simp_all [routeMatches]

/-- C5 amended witness: GET /products dispatches to the first route even
though the fallback also matches, and POST /bar dispatches to no route. -/
theorem dispatch_priority_witness :
    dispatch "GET" "/products" = some RouteSpec.getProducts ∧
    dispatch "POST" "/bar" = none :=
  ⟨(dispatch_priority "GET" "/products").1 (by decide),
   (dispatch_priority "POST" "/bar").2.2.2.2.2 (by decide) (by decide)⟩

/-- C6 counterexample: POST /nope matches no defined route, yet the server
does not render the notFound view with status 200 — the request is left to
the framework default, because the fallback route accepts only GET. -/
theorem post_unmatched_not_rendered :
    serve "POST" "/nope" = Outcome.unhandled ∧
    serve "POST" "/nope" ≠ Outcome.page 200 "notFound" := by
  decide

/-- C6 amended: every GET request whose path matches none of the earlier
routes is dispatched to the "*" fallback and answered by rendering the
notFound view with status 200; non-GET requests are not caught by the
fallback. -/
theorem get_unmatched_renders_notFound (path : String)
    (h1 : routeMatches RouteSpec.getProducts "GET" path = false)
    (h2 : routeMatches RouteSpec.getProductDetail "GET" path = false)
    (h3 : routeMatches RouteSpec.useApiProducts "GET" path = false)
    (h4 : routeMatches RouteSpec.getHome "GET" path = false) :
    serve "GET" path = Outcome.page 200 "notFound" := by
  have hd : dispatch "GET" path = some RouteSpec.getStar := by
    rw [dispatch_eq]
    simp_all [routeMatches]
    simp [cond_eq_if, beq_iff_eq, h1, h4]
  simp [serve, hd]

/-- C6 amended witness: a concrete undefined GET path renders notFound with
status 200. -/
theorem get_unmatched_renders_notFound_witness :
    serve "GET" "/no-such-page" = Outcome.page 200 "notFound" :=
  get_unmatched_renders_notFound "/no-such-page"
    (by decide) (by decide) (by decide) (by decide)

/-- C7: the entry point binds the fixed TCP port 5000, and no environment
variables or command-line arguments change the port. -/
theorem listenPort_fixed (e f : ProcessEnv) :
    listenPort e = 5000 ∧ listenPort e = listenPort f :=
  ⟨rfl, rfl⟩

/-- Helper: with pairwise-distinct identifiers, find? on the identifier of a
member returns exactly that member. -/
theorem find?_id_of_mem (l : List Product) (p : Product)
    (huniq : l.Pairwise (fun a b => a.id ≠ b.id)) (hp : p ∈ l) :
    l.find? (fun q => q.id == p.id) = some p := by
  induction l with
  | nil => cases hp
  | cons a as ih =>
    rcases List.mem_cons.mp hp with hpa | hmem
    · subst hpa
      simp [List.find?]
    · have hpair := List.pairwise_cons.mp huniq
      have hne : a.id ≠ p.id := hpair.1 p hmem
      have : (a.id == p.id) = false := by
        simpa using hne
      simp [List.find?, this, ih hpair.2 hmem]

/-- C8: over a product sequence with unique identifiers, getById returns
none (a not-found condition, not a thrown fault — the function is total)
for every absent id, and returns the matching record for every present id. -/
theorem getById_total (s : ProductService) (id : Nat)
    (huniq : s.products.Pairwise (fun a b => a.id ≠ b.id)) :
    ((∀ p ∈ s.products, p.id ≠ id) → s.getById id = none) ∧
    (∀ p ∈ s.products, p.id = id → s.getById id = some p) := by
  constructor
  · intro habs
    rw [ProductService.getById, List.find?_eq_none]
    intro p hp
    simpa using habs p hp
  · intro p hp hid
    subst hid
    exact find?_id_of_mem s.products p huniq hp

/-- C8 witness: on the concrete sample service, an absent id yields none and
a present id yields its record. -/
theorem getById_total_witness :
    sampleService.getById 3 = none ∧
    sampleService.getById 2 = some ⟨2, "Lamp", 20, "a lamp", "lighting", "lamp.png"⟩ := by
  have h3 := getById_total sampleService 3 (by decide)
  have h2 := getById_total sampleService 2 (by decide)
  exact ⟨h3.1 (by decide),
         h2.2 ⟨2, "Lamp", 20, "a lamp", "lighting", "lamp.png"⟩ (by decide) rfl⟩

end Middlewares
